import Mathlib

/-!
Verification of the two scripts in this repository:

* `examples/opencode-test/sample.py` — the `DataProcessor` record
  validator/transformer (`_load_config`, `process_data`, `_validate_item`,
  `_transform_item`);
* `examples/serverless-api/lambda_function.py` — the Lambda CRUD handler
  (`lambda_handler`, `get_all_items`, `create_item`, `get_item`,
  `delete_item`).

External effects are made explicit: the DynamoDB table is a list of items
keyed by `id`, the two `datetime.now().isoformat()` calls in `create_item`
are two clock readings supplied by the environment, `str(uuid.uuid4())` is
an environment string, and `json.loads` is an environment function returning
either a parsed dictionary or the decode-error text.  Python dictionaries
are association lists with string keys and unique-key update semantics.
-/

/-- A JSON-style scalar or list value, as held in a Python dict produced by
`json.loads` or built by a caller of `DataProcessor`. -/
inductive Value where
  | vstr (s : String)
  | vint (n : Int)
  | vbool (b : Bool)
  | vnull
  | vlist (xs : List Value)

/-- A Python dict with string keys: an association list in insertion order.
Real Python dicts never hold a duplicate key; operations below implement the
dict semantics (lookup by key, in-place update preserving position, append
of a fresh key). -/
abbrev Record := List (String × Value)

/-- Dict lookup: `r[k]` as an `Option` (`r.get(k)` in Python). -/
def dictGet (r : Record) (k : String) : Option Value :=
  (r.find? (fun p => p.1 == k)).map (fun p => p.2)

/-- Dict lookup with default: Python `r.get(k, d)`. -/
def dictGetD (r : Record) (k : String) (d : Value) : Value :=
  (dictGet r k).getD d

/-- Python `k in r` for a dict. -/
def hasKey (r : Record) (k : String) : Bool :=
  (dictGet r k).isSome

/-- Python `r[k] = v`: replace the value at an existing key in place
(keeping its position), or append a fresh key at the end. -/
def dictSet (r : Record) (k : String) (v : Value) : Record :=
  if hasKey r k then r.map (fun p => if p.1 == k then (p.1, v) else p)
  else r ++ [(k, v)]

/-- Python `str.isdigit` restricted to ASCII: the string is nonempty and
every character is a decimal digit. -/
def isdigit (s : String) : Bool :=
  !s.isEmpty && s.all Char.isDigit

/-- Python `int(s)` on a digit-only string: decimal value (leading zeros
collapse, magnitude unbounded). -/
def digitsToInt (s : String) : Int :=
  (s.toNat?.getD 0 : Nat)

namespace DataProcessor

/-- What `open(self.config_path)` followed by `json.load(f)` does for the
configured path: the file may be absent (`FileNotFoundError`), `open` may
raise some other `OSError`, or the opened file is handed to `json.load`,
which either parses a dictionary or raises with an error text. -/
inductive OpenOutcome where
  | fileNotFound
  | osError (e : String)
  | opened (r : Except String Record)

/-- `DataProcessor._load_config`: `try: open + json.load` with
`except FileNotFoundError: return {}`.  Only `FileNotFoundError` is caught;
every other exception of `open` or `json.load` propagates. -/
def load_config (o : OpenOutcome) : Except String Record :=
  match o with
  | .fileNotFound => .ok []
  | .osError e => .error e
  | .opened (.ok d) => .ok d
  | .opened (.error e) => .error e

/-- `self.config.get('required_fields', [])`, read as the list of field
names: a missing key or a non-list value yields `[]`, and the configured
list's entries are the string elements (required fields are names). -/
def requiredFields (config : Record) : List String :=
  match dictGet config "required_fields" with
  | some (.vlist l) =>
      l.filterMap (fun v => match v with | .vstr s => some s | _ => none)
  | _ => []

/-- `DataProcessor._validate_item`:
`all(field in item for field in required_fields)`. -/
def validate_item (config : Record) (item : Record) : Bool :=
  (requiredFields config).all (fun field => hasKey item field)

/-- The digit-string coercion of the loop in `_transform_item`:
`if isinstance(value, str) and value.isdigit(): item[key] = int(value)`. -/
def convertDigits (v : Value) : Value :=
  match v with
  | .vstr s => if isdigit s then .vint (digitsToInt s) else .vstr s
  | v => v

/-- `DataProcessor._transform_item`: inject `int(time.time())` under
`"timestamp"` when that key is absent (`now` is the clock reading), then
coerce every digit-only string value to its integer, in place.  The loop
only ever assigns to keys that already exist, so it is a map over the
values. -/
def transform_item (now : Int) (item : Record) : Record :=
  let item1 :=
    if hasKey item "timestamp" then item
    else dictSet item "timestamp" (.vint now)
  item1.map (fun p => (p.1, convertDigits p.2))

/-- `DataProcessor.process_data`: start from an empty list and, for each
item in order, append its transform when `_validate_item` accepts it. -/
def process_data (config : Record) (now : Int) (data : List Record) :
    List Record :=
  data.foldl
    (fun processed item =>
      if validate_item config item then processed ++ [transform_item now item]
      else processed)
    []

end DataProcessor

namespace ServerlessApi

/-- A persisted item: `{'id', 'name', 'description', 'created_at',
'updated_at'}` as built in `create_item`.  `name`/`description` come from
the parsed request body (`data.get(..., '')`), so they carry whatever JSON
value the caller sent. -/
structure Item where
  id : String
  name : Value
  description : Value
  created_at : String
  updated_at : String

/-- The DynamoDB table `table`, keyed by `id`: the list of stored items. -/
abbrev Table := List Item

/-- `table.get_item(Key={'id': item_id})`: the stored item under that key,
when present (`'Item' in response`). -/
def getItemById (table : Table) (item_id : String) : Option Item :=
  table.find? (fun x => x.id == item_id)

/-- `table.put_item(Item=item)`: store under `item.id`, replacing any
existing item at that key. -/
def put_item (table : Table) (item : Item) : Table :=
  if table.any (fun x => x.id == item.id) then
    table.map (fun x => if x.id == item.id then item else x)
  else table ++ [item]

/-- `table.delete_item(Key={'id': item_id})`: remove the item at that key. -/
def table_delete (table : Table) (item_id : String) : Table :=
  table.filter (fun x => !(x.id == item_id))

/-- The serialized body of a response: exactly the payloads the handler
passes to `json.dumps`. -/
inductive RBody where
  | errObj (msg : String)
  | msgObj (msg : String)
  | itemObj (it : Item)
  | itemsObj (items : List Item) (count : Nat)

/-- A response envelope `{'statusCode': ..., 'headers': ..., 'body': ...}`. -/
structure Response where
  statusCode : Nat
  headers : List (String × String)
  body : RBody

/-- The header dict repeated literally in every response of the source:
`{'Content-Type': 'application/json', 'Access-Control-Allow-Origin': '*'}`. -/
def stdHeaders : List (String × String) :=
  [("Content-Type", "application/json"), ("Access-Control-Allow-Origin", "*")]

/-- A response literal of the source: the given status code, the standard
headers, and the given body. -/
def mkResp (code : Nat) (b : RBody) : Response :=
  ⟨code, stdHeaders, b⟩

/-- An ASCII single-quote character, as Python puts around key names in
`str(KeyError(...))` and around type names in `TypeError` messages. -/
def sq : String := String.singleton (Char.ofNat 39)

/-- The Python exceptions that dispatch can raise in this model: a missing
dict key, subscripting `None`, or a `json.loads` failure. -/
inductive PyError where
  | keyError (k : String)
  | typeError (m : String)
  | jsonDecodeError (m : String)

/-- Python `str(e)` for the modelled exceptions: `str(KeyError(k))` is the
key in single quotes; the others are their message text. -/
def pyStr (e : PyError) : String :=
  match e with
  | .keyError k => sq ++ k ++ sq
  | .typeError m => m
  | .jsonDecodeError m => m

/-- The value of the event's `'body'` key: JSON `null` or a string. -/
inductive BodyVal where
  | null
  | str (s : String)

/-- The value of the event's `'pathParameters'` key: JSON `null` or a dict
of path parameters. -/
inductive PParams where
  | null
  | dict (d : List (String × String))

/-- The inbound event `{httpMethod, path, pathParameters?, body?}`; each
`Option` is `none` when the key is absent from the event dict. -/
structure Event where
  httpMethod : Option String
  path : Option String
  pathParameters : Option PParams
  body : Option BodyVal

/-- The handler's environment of external effects during one invocation:
`json.loads` (parsed dict or decode-error text), `str(uuid.uuid4())`, and
the two successive `datetime.now().isoformat()` readings taken inside
`create_item` (`now1` for `created_at`, then `now2` for `updated_at`). -/
structure Env where
  jsonLoads : String → Except String Record
  uuid : String
  now1 : String
  now2 : String

/-- `event['pathParameters']['id']`: `KeyError` if the event lacks the key,
`TypeError` if its value is `null`, `KeyError` if the dict lacks `'id'`. -/
def getPathId (event : Event) : Except PyError String :=
  match event.pathParameters with
  | none => .error (.keyError "pathParameters")
  | some .null =>
      .error (.typeError (sq ++ "NoneType" ++ sq ++ " object is not subscriptable"))
  | some (.dict d) =>
      match d.find? (fun p => p.1 == "id") with
      | none => .error (.keyError "id")
      | some p => .ok p.2

/-- `get_all_items()`: scan the whole table, 200 with
`{'items': [...], 'count': len(items)}`; the table is untouched. -/
def get_all_items (table : Table) : Response × Table :=
  (mkResp 200 (.itemsObj table table.length), table)

/-- The item dict built in `create_item` from the parsed body `data`:
fresh uuid, `data.get('name', '')`, `data.get('description', '')`, and the
two `datetime.now().isoformat()` readings in call order. -/
def newItem (env : Env) (data : Record) : Item :=
  ⟨env.uuid, dictGetD data "name" (.vstr ""), dictGetD data "description" (.vstr ""),
    env.now1, env.now2⟩

/-- `create_item(body)`: 400 on a falsy body (`None` or `''`); otherwise
`json.loads(body)` (raising on invalid JSON, before any table write), then
build the item and `put_item` it, returning 201 with the item. -/
def create_item (env : Env) (table : Table) (body : BodyVal) :
    Except PyError (Response × Table) :=
  match body with
  | .null => .ok (mkResp 400 (.errObj "Request body is required"), table)
  | .str s =>
    if s == "" then .ok (mkResp 400 (.errObj "Request body is required"), table)
    else
      match env.jsonLoads s with
      | .error e => .error (.jsonDecodeError e)
      | .ok data =>
          .ok (mkResp 201 (.itemObj (newItem env data)),
            put_item table (newItem env data))

/-- `get_item(item_id)`: 404 with `{'error': 'Item not found'}` when the
key is absent, else 200 with the item; the table is untouched. -/
def get_item (table : Table) (item_id : String) : Response × Table :=
  match getItemById table item_id with
  | none => (mkResp 404 (.errObj "Item not found"), table)
  | some it => (mkResp 200 (.itemObj it), table)

/-- `delete_item(item_id)`: look up first, 404 with
`{'error': 'Item not found'}` when absent; otherwise delete and return 200
with `{'message': 'Item deleted successfully'}`. -/
def delete_item (table : Table) (item_id : String) : Response × Table :=
  match getItemById table item_id with
  | none => (mkResp 404 (.errObj "Item not found"), table)
  | some _ =>
      (mkResp 200 (.msgObj "Item deleted successfully"), table_delete table item_id)

/-- The body of the `try` block of `lambda_handler`: route on the already
read `http_method` and `path`, raising (as `.error`) wherever the source
would raise inside the `try`. -/
def dispatch (env : Env) (table : Table) (m p : String) (event : Event) :
    Except PyError (Response × Table) :=
  if m == "GET" && p == "/items" then .ok (get_all_items table)
  else if m == "POST" && p == "/items" then
    match event.body with
    | none => .error (.keyError "body")
    | some b => create_item env table b
  else if m == "GET" && p.startsWith "/items/" then
    match getPathId event with
    | .error e => .error e
    | .ok item_id => .ok (get_item table item_id)
  else if m == "DELETE" && p.startsWith "/items/" then
    match getPathId event with
    | .error e => .error e
    | .ok item_id => .ok (delete_item table item_id)
  else .ok (mkResp 404 (.errObj "Not found"), table)

/-- `lambda_handler(event, context)`: read `event['httpMethod']` and
`event['path']` before the `try` (a `KeyError` there escapes as `.error`);
inside the `try`, any raised exception is caught and turned into a 500
response whose body is `{'error': str(e)}`. -/
def lambda_handler (env : Env) (table : Table) (event : Event) :
    Except PyError (Response × Table) :=
  match event.httpMethod with
  | none => .error (.keyError "httpMethod")
  | some m =>
    match event.path with
    | none => .error (.keyError "path")
    | some p =>
      match dispatch env table m p event with
      | .ok rt => .ok rt
      | .error e => .ok (mkResp 500 (.errObj (pyStr e)), table)

end ServerlessApi

namespace ServerlessApi

/-- A `json.loads` model that parses any body to the empty dict. -/
def jsonEmpty : String → Except String Record := fun _ => .ok []

/-- An environment whose two clock readings coincide. -/
def envSame : Env := ⟨jsonEmpty, "id-1", "t1", "t1"⟩

/-- An environment in which the clock advanced by one microsecond between
the `created_at` reading and the `updated_at` reading. -/
def envTick : Env :=
  ⟨jsonEmpty, "id-1", "2024-01-01T00:00:00.000001", "2024-01-01T00:00:00.000002"⟩

/-- A `json.loads` model that rejects every body with the CPython
decode-error text for a body that is not JSON. -/
def envBadJson : Env :=
  ⟨fun _ => .error "Expecting value: line 1 column 1 (char 0)", "id-1", "t1", "t1"⟩

/-- A `POST /items` event with body the JSON text of the empty object. -/
def evPostEmptyObj : Event := ⟨some "POST", some "/items", none, some (.str "{}")⟩

/-- The item `create_item` builds under `envTick` from an empty body dict. -/
def cexItem : Item :=
  ⟨"id-1", .vstr "", .vstr "", "2024-01-01T00:00:00.000001",
    "2024-01-01T00:00:00.000002"⟩

/-- A sample stored item with key `"a"`. -/
def itA : Item := ⟨"a", .vstr "n", .vstr "d", "t", "t"⟩

end ServerlessApi

namespace DataProcessor

/-- Helper for claim C3: when no value of the record is a digit-only
string, the coercion pass of `_transform_item` maps the record to itself. -/
theorem map_convertDigits_id (item : Record)
    (h : ∀ k s, (k, Value.vstr s) ∈ item → isdigit s = false) :
    item.map (fun p => (p.1, convertDigits p.2)) = item := by
  induction item with
  | nil => rfl
  | cons a t ih =>
      have ha : convertDigits a.2 = a.2 := by
        cases hv : a.2 with
        | vstr s =>
            have hd : isdigit s = false := by
              apply h a.1 s
              have : a = (a.1, Value.vstr s) := by
                cases a; simp_all
              rw [← this]
              exact List.mem_cons_self a t
            simp [convertDigits, hd]
        | vint n => rfl
        | vbool b => rfl
        | vnull => rfl
        | vlist xs => rfl
      have ht := ih (fun k s hm => h k s (List.mem_cons_of_mem a hm))
      simp [ht, ha]

end DataProcessor

/-- Claim C2: `process_data` returns exactly the input records in which
every configured required field name is present as a key, each transformed,
in their original input order; the rest are dropped, and nothing else is
returned that could report which were dropped or why. -/
theorem process_data_filters_and_transforms_in_order
    (config : Record) (now : Int) (data : List Record) :
    DataProcessor.process_data config now data =
      (data.filter (fun item =>
          (DataProcessor.requiredFields config).all (fun f => hasKey item f))).map
        (DataProcessor.transform_item now) := by
  have aux : ∀ (l : List Record) (acc : List Record),
      l.foldl (fun processed item =>
          if DataProcessor.validate_item config item then
            processed ++ [DataProcessor.transform_item now item]
          else processed) acc =
        acc ++ (l.filter (fun item => DataProcessor.validate_item config item)).map
          (DataProcessor.transform_item now) := by
    intro l
    induction l with
    | nil => intro acc; simp
    | cons a l ih =>
        intro acc
        rw [List.foldl_cons, ih]
        cases hval : DataProcessor.validate_item config a with
        | true => simp [hval, List.filter_cons]
        | false => simp [hval, List.filter_cons]
  exact aux data []

/-- Claim C3: `_transform_item` is the identity on a record that already
has a `"timestamp"` key and none of whose values is a digit-only string. -/
theorem transform_item_idem_on_transformed (now : Int) (item : Record)
    (h1 : hasKey item "timestamp" = true)
    (h2 : ∀ k s, (k, Value.vstr s) ∈ item → isdigit s = false) :
    DataProcessor.transform_item now item = item := by
  unfold DataProcessor.transform_item
  simp only [h1, if_true]
  exact DataProcessor.map_convertDigits_id item h2

/-- Witness for claim C3 at a concrete already-transformed record. -/
theorem transform_item_idem_witness :
    DataProcessor.transform_item 7 [("timestamp", Value.vint 5)] =
      [("timestamp", Value.vint 5)] :=
  transform_item_idem_on_transformed 7 [("timestamp", Value.vint 5)] rfl
    (by intro k s hm; simp at hm)

/-- Claim C4: `_load_config` yields the empty mapping when the file is
absent, and propagates any other open error or any parse error as fatal. -/
theorem load_config_absent_empty_else_fatal :
    DataProcessor.load_config .fileNotFound = .ok ([] : Record) ∧
    (∀ e : String, DataProcessor.load_config (.osError e) = .error e) ∧
    (∀ e : String, DataProcessor.load_config (.opened (.error e)) = .error e) :=
  ⟨rfl, fun _ => rfl, fun _ => rfl⟩

namespace ServerlessApi

/-- Claim C1 (amended): on a create request with a non-empty body that
parses, the item persisted and returned carries `created_at` from the first
clock reading and `updated_at` from the second; the two are equal whenever
the clock did not advance between the readings, but `create_item` takes two
separate readings, so equality is not guaranteed in general. -/
theorem create_item_timestamps (env : Env) (table : Table) (s : String)
    (data : Record) (hs : (s == "") = false) (hj : env.jsonLoads s = .ok data) :
    create_item env table (.str s) =
      .ok (mkResp 201 (.itemObj (newItem env data)),
        put_item table (newItem env data)) ∧
    (newItem env data).created_at = env.now1 ∧
    (newItem env data).updated_at = env.now2 ∧
    (env.now1 = env.now2 →
      (newItem env data).created_at = (newItem env data).updated_at) := by
  refine ⟨?_, rfl, rfl, fun h => h⟩
  unfold create_item
  simp [hs, hj]

/-- Witness for the amended claim C1: a concrete create request under an
environment whose two clock readings coincide. -/
theorem create_item_timestamps_witness :
    create_item envSame [] (.str "{}") =
      .ok (mkResp 201 (.itemObj (newItem envSame [])),
        put_item [] (newItem envSame [])) ∧
    (newItem envSame []).created_at = (newItem envSame []).updated_at := by
  have h := create_item_timestamps envSame [] "{}" [] rfl rfl
  exact ⟨h.1, h.2.2.2 rfl⟩

/-- Counterexample to claim C1 as stated: a `POST /items` request with the
non-empty body `"{}"` under an environment whose clock advanced between the
two `datetime.now()` calls; the item persisted and returned has
`created_at ≠ updated_at`. -/
theorem create_item_timestamps_cex :
    lambda_handler envTick [] evPostEmptyObj =
      .ok (mkResp 201 (.itemObj cexItem), [cexItem]) ∧
    cexItem.created_at ≠ cexItem.updated_at := by
  refine ⟨rfl, ?_⟩
  decide

/-- Claim C5: `delete_item` looks the id up first and answers 404 with
`{'error': 'Item not found'}` when absent; on a present id it answers 200
with the confirmation message and deletes, and a subsequent `get_item` on
the same id against the resulting table answers 404. -/
theorem delete_item_then_get_item (table : Table) (item_id : String) :
    (getItemById table item_id = none →
      delete_item table item_id = (mkResp 404 (.errObj "Item not found"), table)) ∧
    (∀ it, getItemById table item_id = some it →
      delete_item table item_id =
        (mkResp 200 (.msgObj "Item deleted successfully"),
          table_delete table item_id) ∧
      get_item (table_delete table item_id) item_id =
        (mkResp 404 (.errObj "Item not found"), table_delete table item_id)) := by
  constructor
  · intro h
    unfold delete_item
    rw [h]
  · intro it h
    constructor
    · unfold delete_item
      rw [h]
    · have hnone : getItemById (table_delete table item_id) item_id = none := by
        unfold getItemById table_delete
        rw [List.find?_eq_none]
        intro x hx
        have hmem := List.mem_filter.mp hx
        simpa using hmem.2
      unfold get_item
      rw [hnone]

/-- Witness for claim C5: deleting the only stored item, then fetching it. -/
theorem delete_item_then_get_item_witness :
    delete_item [itA] "a" =
      (mkResp 200 (.msgObj "Item deleted successfully"), table_delete [itA] "a") ∧
    get_item (table_delete [itA] "a") "a" =
      (mkResp 404 (.errObj "Item not found"), table_delete [itA] "a") :=
  (delete_item_then_get_item [itA] "a").2 itA rfl

end ServerlessApi

namespace ServerlessApi

/-- Helper: projecting the first component out of an `Except.ok` pair
equation. -/
theorem ok_pair_fst {ε α β : Type} {x : α × β} {y : α × β}
    (h : (Except.ok x : Except ε (α × β)) = .ok y) : x.1 = y.1 := by
  injection h with h
  rw [h]

/-- Helper: `get_all_items` answers with the standard headers. -/
theorem get_all_items_fst_headers (table : Table) :
    (get_all_items table).1.headers = stdHeaders := rfl

/-- Helper: `get_item` answers with the standard headers. -/
theorem get_item_fst_headers (table : Table) (item_id : String) :
    (get_item table item_id).1.headers = stdHeaders := by
  unfold get_item
  cases hg : getItemById table item_id <;> rfl

/-- Helper: `delete_item` answers with the standard headers. -/
theorem delete_item_fst_headers (table : Table) (item_id : String) :
    (delete_item table item_id).1.headers = stdHeaders := by
  unfold delete_item
  cases hg : getItemById table item_id <;> rfl

/-- Helper: every successful `create_item` answer has the standard
headers. -/
theorem create_item_resp_headers {env : Env} {table : Table} {b : BodyVal}
    {rt : Response × Table} (h : create_item env table b = .ok rt) :
    rt.1.headers = stdHeaders := by
  unfold create_item at h
  split at h
  · injection h with h
    rw [← h]
    rfl
  · split at h
    · injection h with h
      rw [← h]
      rfl
    · split at h
      · exact Except.noConfusion h
      · injection h with h
        rw [← h]
        rfl

/-- Helper: every successful answer of the routing block has the standard
headers. -/
theorem dispatch_resp_headers {env : Env} {table : Table} {m p : String}
    {event : Event} {rt : Response × Table}
    (h : dispatch env table m p event = .ok rt) : rt.1.headers = stdHeaders := by
  unfold dispatch at h
  split at h
  · injection h with h
    rw [← h]
    rfl
  · split at h
    · split at h
      · exact Except.noConfusion h
      · exact create_item_resp_headers h
    · split at h
      · split at h
        · exact Except.noConfusion h
        · injection h with h
          rw [← h]
          exact get_item_fst_headers _ _
      · split at h
        · split at h
          · exact Except.noConfusion h
          · injection h with h
            rw [← h]
            exact delete_item_fst_headers _ _
        · injection h with h
          rw [← h]
          rfl

/-- Claim C7: every response envelope the handler returns, for any event
and any outcome, carries the permissive cross-origin header and the JSON
content-type header. -/
theorem handler_headers_uniform (env : Env) (table : Table) (event : Event)
    (r : Response) (t : Table)
    (h : lambda_handler env table event = .ok (r, t)) :
    ("Access-Control-Allow-Origin", "*") ∈ r.headers ∧
    ("Content-Type", "application/json") ∈ r.headers := by
  have hh : r.headers = stdHeaders := by
    cases hm : event.httpMethod with
    | none =>
        simp only [lambda_handler, hm] at h
        exact Except.noConfusion h
    | some m =>
        cases hp : event.path with
        | none =>
            simp only [lambda_handler, hm, hp] at h
            exact Except.noConfusion h
        | some p =>
            simp only [lambda_handler, hm, hp] at h
            cases hd : dispatch env table m p event with
            | ok rt =>
                rw [hd] at h
                have hs := dispatch_resp_headers hd
                injection h with h
                rw [h] at hs
                exact hs
            | error e =>
                rw [hd] at h
                injection h with h
                injection h with h1 h2
                rw [← h1]
                rfl
  rw [hh]
  exact ⟨by simp [stdHeaders], by simp [stdHeaders]⟩

/-- Witness for claim C7 at a concrete `GET /items` request. -/
theorem handler_headers_uniform_witness :
    ("Access-Control-Allow-Origin", "*") ∈ (mkResp 200 (.itemsObj [] 0)).headers ∧
    ("Content-Type", "application/json") ∈
      (mkResp 200 (.itemsObj ([] : Table) 0)).headers :=
  handler_headers_uniform envSame [] ⟨some "GET", some "/items", none, none⟩
    (mkResp 200 (.itemsObj [] 0)) [] rfl

end ServerlessApi

namespace ServerlessApi

/-- Claim C6: when the method/path pair satisfies none of the four routing
conditions of the source (`GET /items`, `POST /items`, `GET` on a path
starting with `/items/`, `DELETE` on a path starting with `/items/`), the
handler answers 404 with `{'error': 'Not found'}`. -/
theorem unrouted_not_found (env : Env) (table : Table) (event : Event)
    (m p : String)
    (hm : event.httpMethod = some m) (hp : event.path = some p)
    (h1 : (m == "GET" && p == "/items") = false)
    (h2 : (m == "POST" && p == "/items") = false)
    (h3 : (m == "GET" && p.startsWith "/items/") = false)
    (h4 : (m == "DELETE" && p.startsWith "/items/") = false) :
    lambda_handler env table event =
      .ok (mkResp 404 (.errObj "Not found"), table) := by
  have hd : dispatch env table m p event =
      .ok (mkResp 404 (.errObj "Not found"), table) := by
    simp only [dispatch, h1, h2, h3, h4, Bool.false_eq_true, if_false]
  simp only [lambda_handler, hm, hp, hd]

/-- Witness for claim C6: a `PUT /items` request. -/
theorem unrouted_not_found_witness :
    lambda_handler envSame [] ⟨some "PUT", some "/items", none, none⟩ =
      .ok (mkResp 404 (.errObj "Not found"), []) :=
  unrouted_not_found envSame [] ⟨some "PUT", some "/items", none, none⟩
    "PUT" "/items" rfl rfl rfl rfl rfl rfl

/-- Claim C8: once `httpMethod` and `path` have been read, the handler
always produces a response envelope, and any exception raised by the `try`
block becomes a 500 response whose body carries `str(e)`. -/
theorem handler_catches_dispatch_errors (env : Env) (table : Table)
    (event : Event) (m p : String)
    (hm : event.httpMethod = some m) (hp : event.path = some p) :
    (∃ rt, lambda_handler env table event = .ok rt) ∧
    (∀ e, dispatch env table m p event = .error e →
      lambda_handler env table event =
        .ok (mkResp 500 (.errObj (pyStr e)), table)) := by
  constructor
  · cases hd : dispatch env table m p event with
    | ok rt =>
        refine ⟨rt, ?_⟩
        simp only [lambda_handler, hm, hp, hd]
    | error e =>
        refine ⟨(mkResp 500 (.errObj (pyStr e)), table), ?_⟩
        simp only [lambda_handler, hm, hp, hd]
  · intro e he
    simp only [lambda_handler, hm, hp, he]

/-- Witness for claim C8: a `POST /items` event whose dict lacks the
`'body'` key; the `KeyError` of the `try` block becomes a 500 response. -/
theorem handler_catches_dispatch_errors_witness :
    lambda_handler envSame [] ⟨some "POST", some "/items", none, none⟩ =
      .ok (mkResp 500 (.errObj (pyStr (.keyError "body"))), []) :=
  (handler_catches_dispatch_errors envSame []
    ⟨some "POST", some "/items", none, none⟩ "POST" "/items" rfl rfl).2
    (.keyError "body") rfl

/-- Claim C9: an event lacking `'httpMethod'` or `'path'` makes the handler
raise a `KeyError` before the `try` block, so no response envelope is
produced and the 500 catch-all never applies. -/
theorem missing_method_or_path_raises (env : Env) (table : Table)
    (event : Event) :
    (event.httpMethod = none →
      lambda_handler env table event = .error (.keyError "httpMethod")) ∧
    (∀ m, event.httpMethod = some m → event.path = none →
      lambda_handler env table event = .error (.keyError "path")) := by
  constructor
  · intro h
    simp only [lambda_handler, h]
  · intro m hm hp
    simp only [lambda_handler, hm, hp]

/-- Witness for claim C9: an event with no `'httpMethod'` key. -/
theorem missing_method_or_path_raises_witness :
    lambda_handler envSame [] ⟨none, some "/items", none, none⟩ =
      .error (.keyError "httpMethod") :=
  (missing_method_or_path_raises envSame []
    ⟨none, some "/items", none, none⟩).1 rfl

/-- Claim C10: a `POST /items` event whose body is non-empty but fails
`json.loads` yields a 500 response (not 400) carrying the decode-error
text, and the table is unchanged. -/
theorem invalid_json_create_500 (env : Env) (table : Table) (event : Event)
    (s msg : String)
    (hm : event.httpMethod = some "POST") (hp : event.path = some "/items")
    (hb : event.body = some (.str s)) (hs : (s == "") = false)
    (hj : env.jsonLoads s = .error msg) :
    lambda_handler env table event = .ok (mkResp 500 (.errObj msg), table) := by
  have hsne : ¬((s == "") = true) := by
    rw [hs]
    exact Bool.false_ne_true
  have hd : dispatch env table "POST" "/items" event =
      .error (.jsonDecodeError msg) := by
    unfold dispatch
    rw [hb]
    show create_item env table (.str s) = .error (.jsonDecodeError msg)
    simp only [create_item]
    rw [if_neg hsne, hj]
  simp only [lambda_handler, hm, hp, hd, pyStr]

/-- Witness for claim C10: a body that is not JSON, under the CPython
decode-error text. -/
theorem invalid_json_create_500_witness :
    lambda_handler envBadJson []
      ⟨some "POST", some "/items", none, some (.str "not json")⟩ =
      .ok (mkResp 500
        (.errObj "Expecting value: line 1 column 1 (char 0)"), []) :=
  invalid_json_create_500 envBadJson []
    ⟨some "POST", some "/items", none, some (.str "not json")⟩
    "not json" "Expecting value: line 1 column 1 (char 0)" rfl rfl rfl rfl rfl

end ServerlessApi
